import Mathlib

/-!
Verification of the manga-api Cloudflare worker (src/worker.js).

The development shallowly embeds the worker: the global JavaScript `Map`
caches become association lists in insertion order, `Date.now()` becomes an
explicit integer parameter, outbound fetches become oracle parameters holding
the value the fetch would produce, and exceptions become `Except`.  Handler
functions additionally return a `Trace` recording which side effects
(cache lookup, adapter invocation, cache store) the source performs on that
path.
-/

namespace MangaApi

/-! ## JavaScript `Map` model

A JS `Map` iterates in insertion order; `set` of an existing key updates the
value in place, `set` of a new key appends, `delete` removes the unique entry
with the key.  An association list in insertion order models this exactly. -/

def mapGet {β : Type} (c : List (String × β)) (k : String) : Option β :=
  match c with
  | [] => none
  | p :: t => if p.1 = k then some p.2 else mapGet t k

def mapSet {β : Type} (c : List (String × β)) (k : String) (v : β) : List (String × β) :=
  match c with
  | [] => [(k, v)]
  | p :: t => if p.1 = k then (k, v) :: t else p :: mapSet t k v

def mapDelete {β : Type} (c : List (String × β)) (k : String) : List (String × β) :=
  match c with
  | [] => []
  | p :: t => if p.1 = k then t else p :: mapDelete t k

theorem mapGet_mapSet_self {β : Type} (c : List (String × β)) (k : String) (v : β) :
    mapGet (mapSet c k v) k = some v := by
  induction c with
  | nil => simp [mapGet, mapSet]
  | cons p t ih =>
    by_cases h : p.1 = k
    · simp [mapGet, mapSet, h]
    · simp [mapGet, mapSet, h, ih]

theorem mapGet_eq_none_of_not_mem {β : Type} (c : List (String × β)) (k : String)
    (h : k ∉ c.map Prod.fst) : mapGet c k = none := by
  induction c with
  | nil => simp [mapGet]
  | cons p t ih =>
    simp only [List.map_cons, List.mem_cons] at h
    push_neg at h
    simp [mapGet, Ne.symm h.1, ih h.2]

theorem mapSet_eq_append_of_not_mem {β : Type} (c : List (String × β)) (k : String) (v : β)
    (h : k ∉ c.map Prod.fst) : mapSet c k v = c ++ [(k, v)] := by
  induction c with
  | nil => simp [mapSet]
  | cons p t ih =>
    simp only [List.map_cons, List.mem_cons] at h
    push_neg at h
    simp [mapSet, Ne.symm h.1, ih h.2]

theorem length_mapSet_le {β : Type} (c : List (String × β)) (k : String) (v : β) :
    (mapSet c k v).length ≤ c.length + 1 := by
  induction c with
  | nil => simp [mapSet]
  | cons p t ih =>
    by_cases h : p.1 = k
    · simp [mapSet, h]
    · simp only [mapSet, h, if_false, List.length_cons]
      omega

theorem mapDelete_cons_self {β : Type} (p : String × β) (t : List (String × β)) :
    mapDelete (p :: t) p.1 = t := by
  simp [mapDelete]

theorem mapGet_append {β : Type} (l₁ l₂ : List (String × β)) (k : String)
    (h : k ∉ l₁.map Prod.fst) : mapGet (l₁ ++ l₂) k = mapGet l₂ k := by
  induction l₁ with
  | nil => simp
  | cons p t ih =>
    simp only [List.map_cons, List.mem_cons] at h
    push_neg at h
    simp [mapGet, Ne.symm h.1, ih h.2]

/-! ## JavaScript truthiness helpers

`a || b` on a possibly-absent string is falsy on both `null`/`undefined` and
the empty string. -/

def jsOrStr (o : Option String) (dflt : String) : String :=
  match o with
  | some s => if s = "" then dflt else s
  | none => dflt

/-! ## JSON body model and `jsonResponse` (worker.js lines 128-144)

`jsonResponse` builds `{ creator: 'emnextech', ...data }`: the `creator`
field is written first and a later duplicate key from the spread would
overwrite it, which `jsObjGet` models by letting the last occurrence win. -/

inductive JVal where
  | str (s : String)
  | num (n : Int)
  | bool (b : Bool)
  | arr (l : List JVal)
  | obj (fields : List (String × JVal))
  | null

def jsonResponse (data : List (String × JVal)) : List (String × JVal) :=
  ("creator", JVal.str "emnextech") :: data

def errorResponseData (message : String) : List (String × JVal) :=
  [("status", JVal.str "error"), ("message", JVal.str message)]

def jsObjGet (fields : List (String × JVal)) (k : String) : Option JVal :=
  (fields.reverse.find? (fun p => p.1 == k)).map (fun p => p.2)

/-! ## Cache configuration (worker.js lines 8-15) -/

structure CacheDurations where
  search : Int
  info : Int
  chapters : Int
  pages : Int
  recent : Int
  recentNew : Int

def CACHE_DURATIONS : CacheDurations :=
  { search := 300000, info := 1800000, chapters := 900000, pages := 3600000,
    recent := 180000, recentNew := 600000 }

/-! ## Metadata cache entries and response envelopes

A stored entry is `{ data: result, timestamp: now }`.  The envelope records
the JSON body the handler builds: `cached`, `provider`, `query`, `page`,
`message` are `Option`s because the corresponding fields are present only on
some paths (`none` models an absent field, not a `false`/empty one). -/

structure CacheEntry (α : Type) where
  data : α
  timestamp : Int
deriving DecidableEq

abbrev Cache (α : Type) := List (String × CacheEntry α)

structure Envelope (α : Type) where
  status : String
  cached : Option Bool := none
  provider : Option String := none
  query : Option String := none
  page : Option Int := none
  payload : Option α := none
  message : Option String := none
  httpStatus : Nat := 200
deriving DecidableEq

structure Trace where
  cacheGet : Bool
  adapterCalled : Option String
  cacheSet : Bool
deriving DecidableEq

/-! ## Provider routing (worker.js lines 1382-1413)

`mangaSearch` / `mangaInfo` / `mangaRead` switch on the provider id and throw
for any other id.  The adapter calls are oracles (`dex`, `pill`): the value
the adapter would produce if invoked; the second component reports which
adapter the dispatch selects. -/

def mangaSearch {α : Type} (provider : String) (dex pill : Except String α) :
    Except String α × Option String :=
  if provider = "mangadex" then (dex, some "mangadex")
  else if provider = "mangapill" then (pill, some "mangapill")
  else (Except.error ("Provider \x27" ++ provider ++ "\x27 is not supported or not yet implemented"),
    none)

def mangaInfo {α : Type} (provider : String) (dex pill : Except String α) :
    Except String α × Option String :=
  if provider = "mangadex" then (dex, some "mangadex")
  else if provider = "mangapill" then (pill, some "mangapill")
  else (Except.error ("Provider \x27" ++ provider ++ "\x27 is not supported or not yet implemented"),
    none)

def mangaRead {α : Type} (provider : String) (dex pill : Except String α) :
    Except String α × Option String :=
  if provider = "mangadex" then (dex, some "mangadex")
  else if provider = "mangapill" then (pill, some "mangapill")
  else (Except.error ("Provider \x27" ++ provider ++ "\x27 is not supported or not yet implemented"),
    none)

/-! ## Route handlers (worker.js lines 2223-2277)

Each handler builds its cache key, looks the key up (unconditionally — the
`searchCache.get` happens before the provider dispatch), serves a fresh entry
as a cache hit, and otherwise invokes the provider dispatch, storing the
result only on success. -/

def searchCacheKey (provider query : String) (page : Int) : String :=
  "search:" ++ provider ++ ":" ++ query ++ ":" ++ toString page

def infoCacheKey (provider mangaId : String) : String :=
  "info:" ++ provider ++ ":" ++ mangaId

def pagesCacheKey (provider chapterId : String) : String :=
  "pages:" ++ provider ++ ":" ++ chapterId

def handleSearchMiss {α : Type} (cache : Cache α) (cacheKey provider query : String)
    (page now : Int) (dex pill : Except String α) : Envelope α × Cache α × Trace :=
  match mangaSearch provider dex pill with
  | (Except.ok result, tr) =>
    ({ status := "success", provider := some provider, query := some query,
       page := some page, payload := some result },
     mapSet cache cacheKey { data := result, timestamp := now },
     { cacheGet := true, adapterCalled := tr, cacheSet := true })
  | (Except.error m, tr) =>
    ({ status := "error", message := some m, httpStatus := 500 }, cache,
     { cacheGet := true, adapterCalled := tr, cacheSet := false })

def handleSearch {α : Type} (cache : Cache α) (provider query : String) (page now : Int)
    (dex pill : Except String α) : Envelope α × Cache α × Trace :=
  let cacheKey := searchCacheKey provider query page
  match mapGet cache cacheKey with
  | some cached =>
    if now - cached.timestamp < CACHE_DURATIONS.search then
      ({ status := "success", cached := some true, payload := some cached.data }, cache,
       { cacheGet := true, adapterCalled := none, cacheSet := false })
    else handleSearchMiss cache cacheKey provider query page now dex pill
  | none => handleSearchMiss cache cacheKey provider query page now dex pill

def handleInfoMiss {α : Type} (cache : Cache α) (cacheKey provider : String)
    (now : Int) (dex pill : Except String α) : Envelope α × Cache α × Trace :=
  match mangaInfo provider dex pill with
  | (Except.ok result, tr) =>
    ({ status := "success", provider := some provider, payload := some result },
     mapSet cache cacheKey { data := result, timestamp := now },
     { cacheGet := true, adapterCalled := tr, cacheSet := true })
  | (Except.error m, tr) =>
    ({ status := "error", message := some m, httpStatus := 500 }, cache,
     { cacheGet := true, adapterCalled := tr, cacheSet := false })

def handleInfo {α : Type} (cache : Cache α) (provider mangaId : String) (now : Int)
    (dex pill : Except String α) : Envelope α × Cache α × Trace :=
  let cacheKey := infoCacheKey provider mangaId
  match mapGet cache cacheKey with
  | some cached =>
    if now - cached.timestamp < CACHE_DURATIONS.info then
      ({ status := "success", cached := some true, payload := some cached.data }, cache,
       { cacheGet := true, adapterCalled := none, cacheSet := false })
    else handleInfoMiss cache cacheKey provider now dex pill
  | none => handleInfoMiss cache cacheKey provider now dex pill

def handleReadMiss {α : Type} (cache : Cache α) (cacheKey provider : String)
    (now : Int) (dex pill : Except String α) : Envelope α × Cache α × Trace :=
  match mangaRead provider dex pill with
  | (Except.ok result, tr) =>
    ({ status := "success", provider := some provider, payload := some result },
     mapSet cache cacheKey { data := result, timestamp := now },
     { cacheGet := true, adapterCalled := tr, cacheSet := true })
  | (Except.error m, tr) =>
    ({ status := "error", message := some m, httpStatus := 500 }, cache,
     { cacheGet := true, adapterCalled := tr, cacheSet := false })

def handleRead {α : Type} (cache : Cache α) (provider chapterId : String) (now : Int)
    (dex pill : Except String α) : Envelope α × Cache α × Trace :=
  let cacheKey := pagesCacheKey provider chapterId
  match mapGet cache cacheKey with
  | some cached =>
    if now - cached.timestamp < CACHE_DURATIONS.pages then
      ({ status := "success", cached := some true, payload := some cached.data }, cache,
       { cacheGet := true, adapterCalled := none, cacheSet := false })
    else handleReadMiss cache cacheKey provider now dex pill
  | none => handleReadMiss cache cacheKey provider now dex pill

/-! ## MangaDex adapter (worker.js lines 1225-1284)

The upstream HTTP response carries `ok`/`status`/`statusText` and a body that
either fails `JSON.parse` (`nonJson`) or yields a structured value.  The
structured value is modeled at the shape the adapter traverses: `result`,
`errors[0].detail`, a `data` field that may be absent or not an array, and
`total`. -/

structure MdxRelationship where
  rtype : String
  fileName : Option String

structure MdxManga where
  id : String
  titleEn : Option String
  titleValues : List String
  descriptionEn : Option String
  relationships : List MdxRelationship

inductive MdxDataField where
  | arr (l : List MdxManga)
  | notArr

structure MdxJson where
  result : Option String
  errorDetail : Option String
  dataField : Option MdxDataField
  total : Int

inductive MdxBody where
  | nonJson (raw : String)
  | json (v : MdxJson)

structure UpstreamResponse where
  ok : Bool
  status : Nat
  statusText : String
  body : MdxBody

structure SearchItem where
  id : String
  title : Option String
  image : Option String
  url : String
  provider : String

structure SearchResult where
  currentPage : Int
  hasNextPage : Bool
  results : List SearchItem

def jsOrOptStr (o : Option String) (alt : Option String) : Option String :=
  match o with
  | some s => if s = "" then alt else some s
  | none => alt

def mdxMapManga (manga : MdxManga) : SearchItem :=
  let coverArt := manga.relationships.find? (fun r => r.rtype == "cover_art")
  let coverFileName := coverArt.bind (fun r => r.fileName)
  let image := coverFileName.map
    (fun f => "https://uploads.mangadex.org/covers/" ++ manga.id ++ "/" ++ f)
  { id := manga.id,
    title := jsOrOptStr manga.titleEn manga.titleValues.head?,
    image := image,
    url := "https://mangadex.org/title/" ++ manga.id,
    provider := "MangaDex" }

def mangadexSearchInner (page : Int) (resp : UpstreamResponse) : Except String SearchResult :=
  let limit : Int := 20
  let offset := (page - 1) * limit
  if !resp.ok then
    Except.error ("MangaDex API returned " ++ toString resp.status ++ ": " ++ resp.statusText)
  else
    match resp.body with
    | MdxBody.nonJson _ =>
      Except.error "MangaDex API returned invalid response (possibly rate limited)"
    | MdxBody.json d =>
      if d.result = some "error" then
        Except.error (jsOrStr d.errorDetail "MangaDex API error")
      else
        match d.dataField with
        | none => Except.error "Unexpected response format from MangaDex API"
        | some MdxDataField.notArr => Except.error "Unexpected response format from MangaDex API"
        | some (MdxDataField.arr l) =>
          Except.ok { currentPage := page, hasNextPage := d.total > offset + limit,
                      results := l.map mdxMapManga }

def mangadexSearch (page : Int) (resp : UpstreamResponse) : Except String SearchResult :=
  match mangadexSearchInner page resp with
  | Except.ok r => Except.ok r
  | Except.error m => Except.error ("MangaDex search failed: " ++ m)

/-- Substring test used to state that an error message mentions rate limiting. -/
def listStartsWith : List Char → List Char → Bool
  | [], _ => true
  | _ :: _, [] => false
  | p :: ps, c :: cs => p == c && listStartsWith ps cs

def listContainsStr (pat : List Char) : List Char → Bool
  | [] => false
  | c :: rest => listStartsWith pat (c :: rest) || listContainsStr pat rest

def containsStr (pat s : String) : Bool :=
  listContainsStr pat.toList s.toList

/-! ## Image proxy cache (worker.js lines 1136-1219)

`imageCache` is a process-wide `Map` from image URL to
`{ data, contentType, timestamp }`.  On a fresh hit the cache is untouched; on
a miss with a successful fetch, if `imageCache.size >= MAX_IMAGE_CACHE_SIZE`
the first key in iteration (= insertion) order is deleted before the new
entry is stored. -/

def MAX_IMAGE_CACHE_SIZE : Nat := 100

def IMAGE_CACHE_DURATION : Int := 3600000

structure ImageEntry where
  data : List Nat
  contentType : String
  timestamp : Int
deriving DecidableEq

abbrev ImageCache := List (String × ImageEntry)

inductive FetchOutcome where
  | success (contentType : Option String) (body : List Nat)
  | failure (status : Nat)

inductive ProxyResult where
  | badRequest
  | hit (contentType : String) (body : List Nat)
  | fetchFailed (status : Nat)
  | miss (contentType : String) (body : List Nat)
deriving DecidableEq

def proxyImageFetch (cache : ImageCache) (imageUrl : String) (now : Int) :
    FetchOutcome → ProxyResult × ImageCache
  | FetchOutcome.failure st => (ProxyResult.fetchFailed st, cache)
  | FetchOutcome.success ct body =>
    let contentType := jsOrStr ct "image/jpeg"
    let cache1 :=
      if MAX_IMAGE_CACHE_SIZE ≤ cache.length then
        match cache with
        | [] => []
        | p :: t => mapDelete (p :: t) p.1
      else cache
    (ProxyResult.miss contentType body,
     mapSet cache1 imageUrl { data := body, contentType := contentType, timestamp := now })

def proxyImage (cache : ImageCache) (imageUrl : String) (now : Int)
    (fetchResult : FetchOutcome) : ProxyResult × ImageCache :=
  if imageUrl = "" then (ProxyResult.badRequest, cache)
  else
    match mapGet cache imageUrl with
    | some cached =>
      if now - cached.timestamp < IMAGE_CACHE_DURATION then
        (ProxyResult.hit cached.contentType cached.data, cache)
      else proxyImageFetch cache imageUrl now fetchResult
    | none => proxyImageFetch cache imageUrl now fetchResult

/-- Successive insertions through the proxy, all with the same successful
fetch outcome: the scenario of inserting a sequence of distinct URLs. -/
def proxyInsertAll (cache : ImageCache) (urls : List String) (now : Int)
    (ct : Option String) (body : List Nat) : ImageCache :=
  urls.foldl (fun c u => (proxyImage c u now (FetchOutcome.success ct body)).2) cache

/-! ## MangaPill detail-page status extraction (worker.js lines 308-311)

The source runs `html.match(/Status[^<]*<[^>]*>([^<]+)<\/a>/i)` and, failing
that, `html.match(/Ongoing|Completed|Hiatus/i)`, defaulting to `'UNKNOWN'`.
Both patterns are backtracking-free: every `[^c]*`/`[^c]+` run is maximal and
is followed in the pattern by the very character `c` it excludes, so the
greedy run is the only candidate.  The matchers below scan left to right,
trying the pattern at each position, exactly as the regex engine does. -/

def ciStartsWith : List Char → List Char → Bool
  | [], _ => true
  | _ :: _, [] => false
  | p :: ps, c :: cs => p.toLower == c.toLower && ciStartsWith ps cs

/-- Case-insensitive substring scan, one candidate start position at a time. -/
def ciScan (pat : List Char) : List Char → Bool
  | [] => false
  | c :: rest => ciStartsWith pat (c :: rest) || ciScan pat rest

def containsCI (pat s : String) : Bool :=
  ciScan pat.toList s.toList

/-- Tail of `/Status[^<]*<[^>]*>([^<]+)<\/a>/i` after the `Status` literal:
`[^<]*` then `<`, `[^>]*` then `>`, the nonempty capture `([^<]+)`, then the
closing `</a>` literal (case-insensitive). -/
def statusTailMatch (l : List Char) : Option (List Char) :=
  match l.dropWhile (fun c => c ≠ '<') with
  | '<' :: l2 =>
    match l2.dropWhile (fun c => c ≠ '>') with
    | '>' :: l4 =>
      let cap := l4.takeWhile (fun c => c ≠ '<')
      if cap.isEmpty then none
      else if ciStartsWith "</a>".toList (l4.drop cap.length) then some cap else none
    | _ => none
  | _ => none

/-- `html.match(/Status[^<]*<[^>]*>([^<]+)<\/a>/i)`, returning the capture. -/
def findStatusTag : List Char → Option (List Char)
  | [] => none
  | c :: rest =>
    if ciStartsWith "Status".toList (c :: rest) then
      match statusTailMatch ((c :: rest).drop 6) with
      | some cap => some cap
      | none => findStatusTag rest
    else findStatusTag rest

/-- `html.match(/Ongoing|Completed|Hiatus/i)`, returning the matched text. -/
def findStatusWord : List Char → Option (List Char)
  | [] => none
  | c :: rest =>
    if ciStartsWith "Ongoing".toList (c :: rest) then some ((c :: rest).take 7)
    else if ciStartsWith "Completed".toList (c :: rest) then some ((c :: rest).take 9)
    else if ciStartsWith "Hiatus".toList (c :: rest) then some ((c :: rest).take 6)
    else findStatusWord rest

/-- `const status = statusMatch ? (statusMatch[1] || statusMatch[0]).trim().toUpperCase() : 'UNKNOWN'`.
The first pattern supplies a capture group (`statusMatch[1]`), the second only
the whole match (`statusMatch[0]`). -/
def mangapillInfoStatus (html : String) : String :=
  match findStatusTag html.toList with
  | some cap => (String.mk cap).trim.toUpper
  | none =>
    match findStatusWord html.toList with
    | some m => (String.mk m).trim.toUpper
    | none => "UNKNOWN"

structure MangapillChapter where
  id : String
  title : String
  chapterNumber : String

/-- The Work record `mangapillInfo` assembles (worker.js lines 333-344).  The
title, image, description, genre and chapter extractions each run their own
regular expressions over the fetched markup; their results enter here as
parameters, while the status extraction under verification is implemented in
full.  None of the sub-extractions can throw: the whole record is total. -/
structure MangapillInfo where
  id : String
  title : String
  image : Option String
  description : String
  genres : List String
  status : String
  chapters : List MangapillChapter
  totalChapters : Nat
  provider : String

def mangapillInfo (mangaId html title : String) (image : Option String)
    (description : String) (genres : List String) (chapters : List MangapillChapter) :
    MangapillInfo :=
  { id := mangaId, title := title, image := image, description := description,
    genres := genres, status := mangapillInfoStatus html, chapters := chapters,
    totalChapters := chapters.length, provider := "MangaPill" }

/-! ## Page lists (worker.js lines 358-371, 1364-1371, 779-784)

Each adapter turns the list of image URLs, in extraction order, into
`{ page, img }` records with 1-based indices. -/

structure Page where
  page : Nat
  img : String
deriving DecidableEq

/-- `mangapillRead` pushes `{ page: pages.length + 1, img }` for each match of
the `js-page` pattern, in match order. -/
def mangapillReadPages (imgs : List String) : List Page :=
  imgs.foldl (fun pages img => pages ++ [{ page := pages.length + 1, img := img }]) []

/-- `mangadexRead` maps `data.chapter.data` with
`(filename, index) => ({ page: index + 1, img: baseUrl/data/hash/filename })`. -/
def mangadexReadPages (baseUrl hash : String) (files : List String) : List Page :=
  files.enum.map (fun p =>
    { page := p.1 + 1, img := baseUrl ++ "/data/" ++ hash ++ "/" ++ p.2 })

/-- An element of `chapter.images` in `comickChapter`: either a plain string
or an object carrying `url` and/or `b2key`. -/
inductive ComickImg where
  | direct (s : String)
  | obj (url : Option String) (b2key : Option String)

def stripLeadingSlashes (s : String) : String :=
  String.mk (s.toList.dropWhile (fun c => c = '/'))

def comickImgUrl : ComickImg → String
  | ComickImg.direct s => s
  | ComickImg.obj url b2key =>
    jsOrStr url (match b2key with
      | some b => if b = "" then "" else "https://meo.comick.pictures/" ++ stripLeadingSlashes b
      | none => "")

/-- `comickChapter` maps `chapter.images` with `(img, i) => ({ page: i + 1, img: imgUrl })`. -/
def comickChapterPages (images : List ComickImg) : List Page :=
  images.enum.map (fun p => { page := p.1 + 1, img := comickImgUrl p.2 })

/-! ## Komikstation chapter extraction (worker.js lines 968-1023)

The primary pattern finds the `ts_reader.run(...)` script and reads
`jsonObject?.sources?.[0]?.images || []`; `script = none` models no script
match, `some none` a script whose JSON fails to parse (the catch leaves
`images` empty).  Only if the primary yields zero images is the `readerarea`
fallback scanned (`readerArea = none` models a missing `readerarea` div).
Only if both yield zero images is the error thrown. -/

structure TsSource where
  images : Option (List String)

structure TsReaderConfig where
  sources : List TsSource
  prevUrl : Option String
  nextUrl : Option String

def tsPrimaryImages (script : Option (Option TsReaderConfig)) : List String :=
  match script with
  | some (some cfg) => ((cfg.sources.head?).bind (fun s => s.images)).getD []
  | _ => []

def readerAreaImages (readerArea : Option (List String)) : List String :=
  match readerArea with
  | some imgs => imgs
  | none => []

structure KomikChapter where
  title : String
  chapterId : String
  images : List Page
  prevChapter : Option String
  nextChapter : Option String
  provider : String

def jsOrNull (o : Option String) : Option String :=
  match o with
  | some s => if s = "" then none else some s
  | none => none

def komikstationManhwaChapter (chapterId title : String)
    (script : Option (Option TsReaderConfig)) (readerArea : Option (List String)) :
    Except String KomikChapter :=
  let primary := tsPrimaryImages script
  let images := if primary.isEmpty then readerAreaImages readerArea else primary
  if images.isEmpty then
    Except.error "Failed to fetch chapter: Chapter images not found"
  else
    Except.ok
      { title := title, chapterId := chapterId,
        images := images.enum.map (fun p => { page := p.1 + 1, img := p.2 }),
        prevChapter := match script with
          | some (some cfg) => jsOrNull cfg.prevUrl
          | _ => none,
        nextChapter := match script with
          | some (some cfg) => jsOrNull cfg.nextUrl
          | _ => none,
        provider := "Komikstation" }

/-! ## Claims -/

/-- Claim C1: for every metadata cache key (built from operation, provider and
parameters), a handler invoked while the cache holds an entry whose age is
strictly below the operation TTL returns the stored value unchanged in a
success envelope with `cached = true`, does not invoke any adapter, and
leaves the cache untouched; consequently two calls for the same key within
the TTL return the same value and the second reports `cached = true`.  Stated
for `handleSearch` and `handleInfo` (the cited handlers), plus the two-call
corollary for `handleSearch`. -/
theorem metadata_cache_hit_within_ttl :
    (∀ (α : Type) (cache : Cache α) (provider query : String) (page now : Int)
        (dex pill : Except String α) (e : CacheEntry α),
      mapGet cache (searchCacheKey provider query page) = some e →
      now - e.timestamp < CACHE_DURATIONS.search →
      handleSearch cache provider query page now dex pill =
        ({ status := "success", cached := some true, payload := some e.data }, cache,
         { cacheGet := true, adapterCalled := none, cacheSet := false }))
  ∧ (∀ (α : Type) (cache : Cache α) (provider mangaId : String) (now : Int)
        (dex pill : Except String α) (e : CacheEntry α),
      mapGet cache (infoCacheKey provider mangaId) = some e →
      now - e.timestamp < CACHE_DURATIONS.info →
      handleInfo cache provider mangaId now dex pill =
        ({ status := "success", cached := some true, payload := some e.data }, cache,
         { cacheGet := true, adapterCalled := none, cacheSet := false }))
  ∧ (∀ (α : Type) (cache : Cache α) (provider query : String) (page now later : Int)
        (dex pill : Except String α) (v : α) (tr : Option String),
      mapGet cache (searchCacheKey provider query page) = none →
      mangaSearch provider dex pill = (Except.ok v, tr) →
      later - now < CACHE_DURATIONS.search →
      (handleSearch cache provider query page now dex pill).1.payload = some v ∧
      (handleSearch (handleSearch cache provider query page now dex pill).2.1
          provider query page later dex pill).1 =
        { status := "success", cached := some true, payload := some v }) := by
  refine ⟨?_, ?_, ?_⟩
  · intro α cache provider query page now dex pill e h1 h2
    simp [handleSearch, h1, h2]
  · intro α cache provider mangaId now dex pill e h1 h2
    simp [handleInfo, h1, h2]
  · intro α cache provider query page now later dex pill v tr h1 hms h3
    have hfirst : handleSearch cache provider query page now dex pill =
        ({ status := "success", provider := some provider, query := some query,
           page := some page, payload := some v },
         mapSet cache (searchCacheKey provider query page) { data := v, timestamp := now },
         { cacheGet := true, adapterCalled := tr, cacheSet := true }) := by
      simp [handleSearch, h1, handleSearchMiss, hms]
    refine ⟨by rw [hfirst], ?_⟩
    rw [hfirst]
    have h2 : mapGet (mapSet cache (searchCacheKey provider query page)
        { data := v, timestamp := now }) (searchCacheKey provider query page) =
        some { data := v, timestamp := now } := mapGet_mapSet_self _ _ _
    simp [handleSearch, h2, h3]

/-- Witness for C1: a concrete fresh hit for search and for info, and a
concrete pair of calls within the TTL. -/
theorem metadata_cache_hit_within_ttl_witness :
    (handleSearch [(searchCacheKey "mangapill" "naruto" 1,
        ({ data := 7, timestamp := 0 } : CacheEntry Nat))]
        "mangapill" "naruto" 1 100 (Except.ok 1) (Except.ok 2)).1 =
      { status := "success", cached := some true, payload := some 7 } ∧
    (handleInfo [(infoCacheKey "mangapill" "one-piece",
        ({ data := 9, timestamp := 0 } : CacheEntry Nat))]
        "mangapill" "one-piece" 100 (Except.ok 1) (Except.ok 2)).1 =
      { status := "success", cached := some true, payload := some 9 } ∧
    (handleSearch (handleSearch ([] : Cache Nat) "mangapill" "naruto" 1 0
        (Except.ok 1) (Except.ok 5)).2.1 "mangapill" "naruto" 1 200
        (Except.ok 1) (Except.ok 5)).1 =
      { status := "success", cached := some true, payload := some 5 } := by
  refine ⟨?_, ?_, ?_⟩
  · rw [metadata_cache_hit_within_ttl.1 Nat
      [(searchCacheKey "mangapill" "naruto" 1, { data := 7, timestamp := 0 })]
      "mangapill" "naruto" 1 100 (Except.ok 1) (Except.ok 2)
      { data := 7, timestamp := 0 } (by decide) (by decide)]
  · rw [metadata_cache_hit_within_ttl.2.1 Nat
      [(infoCacheKey "mangapill" "one-piece", { data := 9, timestamp := 0 })]
      "mangapill" "one-piece" 100 (Except.ok 1) (Except.ok 2)
      { data := 9, timestamp := 0 } (by decide) (by decide)]
  · exact (metadata_cache_hit_within_ttl.2.2 Nat [] "mangapill" "naruto" 1 0 200
      (Except.ok 1) (Except.ok 5) 5 (some "mangapill") rfl rfl (by decide)).2

/-- Helper: `handleSearch` on a key that is absent or stale propagates a
compute error as the error envelope and leaves the cache untouched. -/
theorem handleSearch_compute_error {α : Type} (cache : Cache α)
    (provider query : String) (page now : Int) (dex pill : Except String α)
    (m : String) (tr : Option String)
    (hstale : ∀ e, mapGet cache (searchCacheKey provider query page) = some e →
      CACHE_DURATIONS.search ≤ now - e.timestamp)
    (herr : mangaSearch provider dex pill = (Except.error m, tr)) :
    handleSearch cache provider query page now dex pill =
      ({ status := "error", message := some m, httpStatus := 500 }, cache,
       { cacheGet := true, adapterCalled := tr, cacheSet := false }) := by
  cases hm : mapGet cache (searchCacheKey provider query page) with
  | none => simp [handleSearch, hm, handleSearchMiss, herr]
  | some e =>
    have hle := hstale e hm
    simp [handleSearch, hm, handleSearchMiss, herr, not_lt.mpr hle]

/-- Helper: `handleInfo` on a key that is absent or stale propagates a
compute error as the error envelope and leaves the cache untouched. -/
theorem handleInfo_compute_error {α : Type} (cache : Cache α)
    (provider mangaId : String) (now : Int) (dex pill : Except String α)
    (m : String) (tr : Option String)
    (hstale : ∀ e, mapGet cache (infoCacheKey provider mangaId) = some e →
      CACHE_DURATIONS.info ≤ now - e.timestamp)
    (herr : mangaInfo provider dex pill = (Except.error m, tr)) :
    handleInfo cache provider mangaId now dex pill =
      ({ status := "error", message := some m, httpStatus := 500 }, cache,
       { cacheGet := true, adapterCalled := tr, cacheSet := false }) := by
  cases hm : mapGet cache (infoCacheKey provider mangaId) with
  | none => simp [handleInfo, hm, handleInfoMiss, herr]
  | some e =>
    have hle := hstale e hm
    simp [handleInfo, hm, handleInfoMiss, herr, not_lt.mpr hle]

/-- Claim C2: when the compute (adapter dispatch) errors, the handler returns
an error envelope carrying the message unchanged and the metadata cache is
left exactly as it was, so the failure is never stored.  Stated for
`handleSearch` and `handleInfo` (the cited handlers). -/
theorem metadata_cache_error_not_stored :
    (∀ (α : Type) (cache : Cache α) (provider query : String) (page now : Int)
        (dex pill : Except String α) (m : String) (tr : Option String),
      (∀ e, mapGet cache (searchCacheKey provider query page) = some e →
        CACHE_DURATIONS.search ≤ now - e.timestamp) →
      mangaSearch provider dex pill = (Except.error m, tr) →
      handleSearch cache provider query page now dex pill =
        ({ status := "error", message := some m, httpStatus := 500 }, cache,
         { cacheGet := true, adapterCalled := tr, cacheSet := false }))
  ∧ (∀ (α : Type) (cache : Cache α) (provider mangaId : String) (now : Int)
        (dex pill : Except String α) (m : String) (tr : Option String),
      (∀ e, mapGet cache (infoCacheKey provider mangaId) = some e →
        CACHE_DURATIONS.info ≤ now - e.timestamp) →
      mangaInfo provider dex pill = (Except.error m, tr) →
      handleInfo cache provider mangaId now dex pill =
        ({ status := "error", message := some m, httpStatus := 500 }, cache,
         { cacheGet := true, adapterCalled := tr, cacheSet := false })) := by
  constructor
  · intro α cache provider query page now dex pill m tr hstale herr
    exact handleSearch_compute_error cache provider query page now dex pill m tr hstale herr
  · intro α cache provider mangaId now dex pill m tr hstale herr
    exact handleInfo_compute_error cache provider mangaId now dex pill m tr hstale herr

/-- Witness for C2: a failing MangaDex compute on an empty cache, for search
and for info. -/
theorem metadata_cache_error_not_stored_witness :
    handleSearch ([] : Cache Nat) "mangadex" "naruto" 1 0
        (Except.error "boom") (Except.ok 2) =
      ({ status := "error", message := some "boom", httpStatus := 500 }, [],
       { cacheGet := true, adapterCalled := some "mangadex", cacheSet := false }) ∧
    handleInfo ([] : Cache Nat) "mangadex" "one-piece" 0
        (Except.error "boom") (Except.ok 2) =
      ({ status := "error", message := some "boom", httpStatus := 500 }, [],
       { cacheGet := true, adapterCalled := some "mangadex", cacheSet := false }) := by
  constructor
  · exact metadata_cache_error_not_stored.1 Nat [] "mangadex" "naruto" 1 0
      (Except.error "boom") (Except.ok 2) "boom" (some "mangadex")
      (fun e he => by simp [mapGet] at he) rfl
  · exact metadata_cache_error_not_stored.2 Nat [] "mangadex" "one-piece" 0
      (Except.error "boom") (Except.ok 2) "boom" (some "mangadex")
      (fun e he => by simp [mapGet] at he) rfl

/-- Counterexample to claim C6 as stated: with a stored entry whose age has
reached the search TTL exactly (timestamp 0, now = 300000), the handler does
recompute and store (`cacheSet = true`), but the success envelope it returns
carries no `cached` field at all (worker.js line 2237 spreads
`{ status, provider, query, page, ...result }` without `cached`), so the
response does not report `cached = false`. -/
theorem expired_entry_recompute_counterexample :
    (handleSearch [(searchCacheKey "mangapill" "naruto" 1,
        ({ data := 0, timestamp := 0 } : CacheEntry Nat))]
        "mangapill" "naruto" 1 300000 (Except.ok 2) (Except.ok 1)).2.2.cacheSet = true ∧
    ¬ (handleSearch [(searchCacheKey "mangapill" "naruto" 1,
        ({ data := 0, timestamp := 0 } : CacheEntry Nat))]
        "mangapill" "naruto" 1 300000 (Except.ok 2) (Except.ok 1)).1.cached = some false := by
  constructor
  · decide
  · decide

/-- Claim C6 (amended): for a stored entry whose age has reached or exceeded
the operation TTL, a new call invokes the compute function again, stores the
fresh result under the current timestamp, and returns a success envelope that
omits the `cached` flag (rather than reporting `cached = false`).  Stated for
`handleSearch` and `handleRead` (the cited handlers). -/
theorem expired_entry_recompute :
    (∀ (α : Type) (cache : Cache α) (provider query : String) (page now : Int)
        (dex pill : Except String α) (e : CacheEntry α) (v : α) (tr : Option String),
      mapGet cache (searchCacheKey provider query page) = some e →
      CACHE_DURATIONS.search ≤ now - e.timestamp →
      mangaSearch provider dex pill = (Except.ok v, tr) →
      handleSearch cache provider query page now dex pill =
        ({ status := "success", provider := some provider, query := some query,
           page := some page, payload := some v },
         mapSet cache (searchCacheKey provider query page) { data := v, timestamp := now },
         { cacheGet := true, adapterCalled := tr, cacheSet := true }) ∧
      mapGet (handleSearch cache provider query page now dex pill).2.1
          (searchCacheKey provider query page) = some { data := v, timestamp := now } ∧
      (handleSearch cache provider query page now dex pill).1.cached = none)
  ∧ (∀ (α : Type) (cache : Cache α) (provider chapterId : String) (now : Int)
        (dex pill : Except String α) (e : CacheEntry α) (v : α) (tr : Option String),
      mapGet cache (pagesCacheKey provider chapterId) = some e →
      CACHE_DURATIONS.pages ≤ now - e.timestamp →
      mangaRead provider dex pill = (Except.ok v, tr) →
      handleRead cache provider chapterId now dex pill =
        ({ status := "success", provider := some provider, payload := some v },
         mapSet cache (pagesCacheKey provider chapterId) { data := v, timestamp := now },
         { cacheGet := true, adapterCalled := tr, cacheSet := true }) ∧
      mapGet (handleRead cache provider chapterId now dex pill).2.1
          (pagesCacheKey provider chapterId) = some { data := v, timestamp := now } ∧
      (handleRead cache provider chapterId now dex pill).1.cached = none) := by
  constructor
  · intro α cache provider query page now dex pill e v tr hm hle hok
    have hmain : handleSearch cache provider query page now dex pill =
        ({ status := "success", provider := some provider, query := some query,
           page := some page, payload := some v },
         mapSet cache (searchCacheKey provider query page) { data := v, timestamp := now },
         { cacheGet := true, adapterCalled := tr, cacheSet := true }) := by
      simp [handleSearch, hm, handleSearchMiss, hok, not_lt.mpr hle]
    exact ⟨hmain, by rw [hmain]; exact mapGet_mapSet_self _ _ _, by rw [hmain]⟩
  · intro α cache provider chapterId now dex pill e v tr hm hle hok
    have hmain : handleRead cache provider chapterId now dex pill =
        ({ status := "success", provider := some provider, payload := some v },
         mapSet cache (pagesCacheKey provider chapterId) { data := v, timestamp := now },
         { cacheGet := true, adapterCalled := tr, cacheSet := true }) := by
      simp [handleRead, hm, handleReadMiss, hok, not_lt.mpr hle]
    exact ⟨hmain, by rw [hmain]; exact mapGet_mapSet_self _ _ _, by rw [hmain]⟩

/-- Witness for the amended C6: concrete expired entries for search and read. -/
theorem expired_entry_recompute_witness :
    (handleSearch [(searchCacheKey "mangapill" "naruto" 1,
        ({ data := 0, timestamp := 0 } : CacheEntry Nat))]
        "mangapill" "naruto" 1 300000 (Except.ok 2) (Except.ok 1)).1.cached = none ∧
    (handleRead [(pagesCacheKey "mangapill" "ch-1",
        ({ data := 0, timestamp := 0 } : CacheEntry Nat))]
        "mangapill" "ch-1" 3600000 (Except.ok 2) (Except.ok 1)).1.cached = none := by
  constructor
  · exact (expired_entry_recompute.1 Nat
      [(searchCacheKey "mangapill" "naruto" 1, { data := 0, timestamp := 0 })]
      "mangapill" "naruto" 1 300000 (Except.ok 2) (Except.ok 1)
      { data := 0, timestamp := 0 } 1 (some "mangapill")
      (by decide) (by decide) rfl).2.2
  · exact (expired_entry_recompute.2 Nat
      [(pagesCacheKey "mangapill" "ch-1", { data := 0, timestamp := 0 })]
      "mangapill" "ch-1" 3600000 (Except.ok 2) (Except.ok 1)
      { data := 0, timestamp := 0 } 1 (some "mangapill")
      (by decide) (by decide) rfl).2.2

/-- Counterexample to claim C5 as stated: for an unsupported provider id, the
handler still performs the metadata cache lookup — `searchCache.get(cacheKey)`
at worker.js line 2228 runs before the provider dispatch — so it is not the
case that no cache is invoked, even though the envelope is the
unsupported-provider error. -/
theorem unsupported_provider_counterexample :
    (handleSearch ([] : Cache Nat) "webtoon" "solo-leveling" 1 0
        (Except.ok 0) (Except.ok 0)).1.status = "error" ∧
    (handleSearch ([] : Cache Nat) "webtoon" "solo-leveling" 1 0
        (Except.ok 0) (Except.ok 0)).2.2.cacheGet = true := by
  constructor
  · decide
  · decide

/-- Claim C5 (amended): a request naming a provider outside the supported set
yields the distinct unsupported-provider error as a status-`error` envelope
(not a crash), no adapter is invoked, and the cache is not modified — though
the handler does consult the cache with a lookup before dispatching, which
(absent a fresh entry under that key) cannot produce a hit. -/
theorem unsupported_provider_error :
    ∀ (α : Type) (cache : Cache α) (provider query : String) (page now : Int)
      (dex pill : Except String α),
      provider ≠ "mangadex" → provider ≠ "mangapill" →
      (∀ e, mapGet cache (searchCacheKey provider query page) = some e →
        CACHE_DURATIONS.search ≤ now - e.timestamp) →
      mangaSearch provider dex pill =
        (Except.error ("Provider \x27" ++ provider ++
          "\x27 is not supported or not yet implemented"), none) ∧
      handleSearch cache provider query page now dex pill =
        ({ status := "error",
           message := some ("Provider \x27" ++ provider ++
             "\x27 is not supported or not yet implemented"),
           httpStatus := 500 }, cache,
         { cacheGet := true, adapterCalled := none, cacheSet := false }) := by
  intro α cache provider query page now dex pill hdex hpill hstale
  have hms : mangaSearch provider dex pill =
      (Except.error ("Provider \x27" ++ provider ++
        "\x27 is not supported or not yet implemented"), none) := by
    simp [mangaSearch, hdex, hpill]
  exact ⟨hms, handleSearch_compute_error cache provider query page now
    dex pill _ none hstale hms⟩

/-- Witness for the amended C5: a concrete unsupported provider id on an
empty cache. -/
theorem unsupported_provider_error_witness :
    (handleSearch ([] : Cache Nat) "webtoon" "solo-leveling" 1 0
        (Except.ok 0) (Except.ok 0)).1.message =
      some "Provider \x27webtoon\x27 is not supported or not yet implemented" := by
  rw [(unsupported_provider_error Nat [] "webtoon" "solo-leveling" 1 0
    (Except.ok 0) (Except.ok 0) (by decide) (by decide)
    (fun e he => by simp [mapGet] at he)).2]
  rfl

/-- Claim C4: a MangaDex upstream response with an HTTP success status whose
body does not parse as JSON makes the adapter raise the rate-limit error (not
a generic parse failure), and the handler envelope built from it has status
`"error"` with a message that mentions rate limiting. -/
theorem mangadex_non_json_rate_limit :
    ∀ (query raw statusText : String) (st : Nat) (page now : Int)
      (cache : Cache SearchResult) (pill : Except String SearchResult),
      (∀ e, mapGet cache (searchCacheKey "mangadex" query page) = some e →
        CACHE_DURATIONS.search ≤ now - e.timestamp) →
      mangadexSearch page
          { ok := true, status := st, statusText := statusText,
            body := MdxBody.nonJson raw } =
        Except.error
          "MangaDex search failed: MangaDex API returned invalid response (possibly rate limited)" ∧
      containsStr "rate limit"
        "MangaDex search failed: MangaDex API returned invalid response (possibly rate limited)" = true ∧
      handleSearch cache "mangadex" query page now
          (mangadexSearch page
            { ok := true, status := st, statusText := statusText,
              body := MdxBody.nonJson raw }) pill =
        ({ status := "error",
           message := some
             "MangaDex search failed: MangaDex API returned invalid response (possibly rate limited)",
           httpStatus := 500 }, cache,
         { cacheGet := true, adapterCalled := some "mangadex", cacheSet := false }) := by
  intro query raw statusText st page now cache pill hstale
  have hadapter : mangadexSearch page
      { ok := true, status := st, statusText := statusText, body := MdxBody.nonJson raw } =
      Except.error
        "MangaDex search failed: MangaDex API returned invalid response (possibly rate limited)" := by
    simp [mangadexSearch, mangadexSearchInner]
  refine ⟨hadapter, by decide, ?_⟩
  exact handleSearch_compute_error cache "mangadex" query page now
    _ pill _ (some "mangadex") hstale (by simp [mangaSearch, hadapter])

/-- Witness for C4: a concrete HTML error page served with HTTP 200. -/
theorem mangadex_non_json_rate_limit_witness :
    mangadexSearch 1
        { ok := true, status := 200, statusText := "OK",
          body := MdxBody.nonJson "<html>Too many requests</html>" } =
      Except.error
        "MangaDex search failed: MangaDex API returned invalid response (possibly rate limited)" :=
  (mangadex_non_json_rate_limit "naruto" "<html>Too many requests</html>" "OK" 200 1 0 []
    (Except.ok { currentPage := 1, hasNextPage := false, results := [] })
    (fun e he => by simp [mapGet] at he)).1

/-- Helper for C7: the first status pattern cannot match markup that does not
contain `Status` case-insensitively. -/
theorem findStatusTag_eq_none (l : List Char)
    (h : ciScan "Status".toList l = false) : findStatusTag l = none := by
  rw [show "Status".toList = ['S', 't', 'a', 't', 'u', 's'] from rfl] at h
  induction l with
  | nil => rfl
  | cons c rest ih =>
    rw [ciScan, Bool.or_eq_false_iff] at h
    rw [findStatusTag, if_neg (by simp [h.1])]
    exact ih h.2

/-- Helper for C7: the word pattern cannot match markup containing none of
`Ongoing`, `Completed`, `Hiatus` case-insensitively. -/
theorem findStatusWord_eq_none (l : List Char)
    (h1 : ciScan "Ongoing".toList l = false)
    (h2 : ciScan "Completed".toList l = false)
    (h3 : ciScan "Hiatus".toList l = false) : findStatusWord l = none := by
  rw [show "Ongoing".toList = ['O', 'n', 'g', 'o', 'i', 'n', 'g'] from rfl] at h1
  rw [show "Completed".toList = ['C', 'o', 'm', 'p', 'l', 'e', 't', 'e', 'd'] from rfl] at h2
  rw [show "Hiatus".toList = ['H', 'i', 'a', 't', 'u', 's'] from rfl] at h3
  induction l with
  | nil => rfl
  | cons c rest ih =>
    rw [ciScan, Bool.or_eq_false_iff] at h1 h2 h3
    rw [findStatusWord, if_neg (by simp [h1.1]), if_neg (by simp [h2.1]),
      if_neg (by simp [h3.1])]
    exact ih h1.2 h2.2 h3.2

/-- Claim C7: a detail page containing no status indicator at all (no
case-insensitive occurrence of `Status`, `Ongoing`, `Completed` or `Hiatus`)
makes `mangapillInfo` return a Work record whose status field is the sentinel
`"UNKNOWN"`; the extraction is total, so no error is raised for the missing
sub-field. -/
theorem mangapill_missing_status_unknown :
    ∀ (mangaId html title description : String) (image : Option String)
      (genres : List String) (chapters : List MangapillChapter),
      containsCI "Status" html = false →
      containsCI "Ongoing" html = false →
      containsCI "Completed" html = false →
      containsCI "Hiatus" html = false →
      (mangapillInfo mangaId html title image description genres chapters).status =
        "UNKNOWN" := by
  intro mangaId html title description image genres chapters h1 h2 h3 h4
  unfold mangapillInfo mangapillInfoStatus
  rw [findStatusTag_eq_none html.toList h1, findStatusWord_eq_none html.toList h2 h3 h4]

/-- Witness for C7: a concrete detail page with no status indicator. -/
theorem mangapill_missing_status_unknown_witness :
    (mangapillInfo "demon-slayer" "<html><body><h1>Kimetsu</h1></body></html>"
      "Kimetsu" none "" [] []).status = "UNKNOWN" :=
  mangapill_missing_status_unknown "demon-slayer"
    "<html><body><h1>Kimetsu</h1></body></html>" "Kimetsu" "" none [] []
    (by decide) (by decide) (by decide) (by decide)

/-! ## ComicK info extraction (worker.js lines 729-772)

`comickInfo` fetches the comic page and runs
`html.match(/<script[^>]*id=["']comic-data["'][^>]*>([\s\S]*?)<\/script>/i)`;
if the pattern yields zero matches it throws `Comic data not found` at once —
there is no secondary fallback pattern in this function.  The matcher below
implements the pattern: at each start position, the literal `<script`, then —
within the following run of non-`>` characters, since both `[^>]*` pieces
exclude `>` — an `id=` attribute whose value is `comic-data` in either quote
style, the closing `>`, and the lazily captured body up to the first
`</script>`. -/

def singleQuoteChar : Char := Char.ofNat 39

def quoteCharB (c : Char) : Bool := c == '"' || c == singleQuoteChar

/-- Scans a run of non-`>` characters for `id=["']comic-data["']`. -/
def comickIdAttr : List Char → Bool
  | [] => false
  | c :: rest =>
    (ciStartsWith "id=".toList (c :: rest) &&
      (match (c :: rest).drop 3 with
       | [] => false
       | q1 :: r1 =>
         quoteCharB q1 && ciStartsWith "comic-data".toList r1 &&
           (match r1.drop 10 with
            | [] => false
            | q2 :: _ => quoteCharB q2)))
    || comickIdAttr rest

/-- Lazy capture `([\s\S]*?)` up to the first `</script>`. -/
def captureUntilCloseScript : List Char → Option (List Char)
  | [] => none
  | c :: rest =>
    if ciStartsWith "</script>".toList (c :: rest) then some []
    else (captureUntilCloseScript rest).map (fun l => c :: l)

/-- One attempt of the comic-data pattern at the current position. -/
def comickScriptAt (l : List Char) : Option (List Char) :=
  if ciStartsWith "<script".toList l then
    let l1 := l.drop 7
    let run := l1.takeWhile (fun c => c ≠ '>')
    if comickIdAttr run then
      match l1.drop run.length with
      | '>' :: body => captureUntilCloseScript body
      | _ => none
    else none
  else none

def comickDataScriptScan : List Char → Option (List Char)
  | [] => none
  | c :: rest =>
    match comickScriptAt (c :: rest) with
    | some cap => some cap
    | none => comickDataScriptScan rest

def comickDataScript (html : String) : Option String :=
  (comickDataScriptScan html.toList).map String.mk

/-- The scraped info record `comickInfo` assembles; the fields past the
script check do not affect the extraction-failure behavior. -/
structure ComickInfoData where
  id : String
  title : String
deriving DecidableEq

/-- `comickInfo` after the fetch: a missing comic-data script throws
`Comic data not found` immediately (worker.js line 735) and the catch block
wraps every inner failure as `ComicK info failed: ...`.  `rest` is the
outcome of the remainder of the `try` block (the `JSON.parse` of the capture,
the slug check, the chapter-list fetch and the record mapping), which only
runs once the script pattern has matched. -/
def comickInfo (html : String) (rest : Except String ComickInfoData) :
    Except String ComickInfoData :=
  match comickDataScript html with
  | none => Except.error "ComicK info failed: Comic data not found"
  | some _ =>
    match rest with
    | Except.ok v => Except.ok v
    | Except.error m => Except.error ("ComicK info failed: " ++ m)

/-- Counterexample to claim C8 as stated: the ComicK info scrape is a
scraping operation whose primary comic-data pattern yields zero matches on
this fixture, yet the parse failure `Comic data not found` is surfaced
immediately — no secondary fallback pattern exists in `comickInfo`, as its
model shows: the error is produced even though the remainder of the function
(here an `Except.ok` oracle) would have succeeded. -/
theorem comick_info_no_fallback_counterexample :
    comickDataScript "<html><body>No comic data here</body></html>" = none ∧
    comickInfo "<html><body>No comic data here</body></html>"
        (Except.ok { id := "x", title := "X" }) =
      Except.error "ComicK info failed: Comic data not found" := by
  constructor
  · rfl
  · rfl

/-- Claim C8 (amended): in the Komikstation chapter scrape — the one scraping
operation with a secondary fallback pattern — the `readerarea` fallback is
what decides the result whenever the primary `ts_reader` pattern yields zero
images, and the `Chapter images not found` error is surfaced exactly when the
primary and the fallback have both yielded zero images.  Other scraping
operations (such as the ComicK info scrape above) declare their parse failure
directly, with no fallback attempted. -/
theorem komikstation_fallback_before_parse_error :
    ∀ (chapterId title : String) (script : Option (Option TsReaderConfig))
      (readerArea : Option (List String)),
      (tsPrimaryImages script ≠ [] →
        (komikstationManhwaChapter chapterId title script readerArea).map
            KomikChapter.images =
          Except.ok ((tsPrimaryImages script).enum.map
            (fun p => { page := p.1 + 1, img := p.2 }))) ∧
      (tsPrimaryImages script = [] → readerAreaImages readerArea ≠ [] →
        (komikstationManhwaChapter chapterId title script readerArea).map
            KomikChapter.images =
          Except.ok ((readerAreaImages readerArea).enum.map
            (fun p => { page := p.1 + 1, img := p.2 }))) ∧
      ((∃ msg, komikstationManhwaChapter chapterId title script readerArea =
          Except.error msg) ↔
        tsPrimaryImages script = [] ∧ readerAreaImages readerArea = []) := by
  intro chapterId title script readerArea
  refine ⟨?_, ?_, ?_⟩
  · intro hp
    have h1 : (tsPrimaryImages script).isEmpty = false := by simp [List.isEmpty_iff, hp]
    simp [komikstationManhwaChapter, h1, Except.map]
  · intro hp hf
    have h1 : (tsPrimaryImages script).isEmpty = true := by simp [List.isEmpty_iff, hp]
    have h2 : (readerAreaImages readerArea).isEmpty = false := by simp [List.isEmpty_iff, hf]
    simp [komikstationManhwaChapter, h1, h2, Except.map]
  · constructor
    · rintro ⟨msg, hmsg⟩
      by_cases hp : tsPrimaryImages script = []
      · by_cases hf : readerAreaImages readerArea = []
        · exact ⟨hp, hf⟩
        · have h1 : (tsPrimaryImages script).isEmpty = true := by simp [List.isEmpty_iff, hp]
          have h2 : (readerAreaImages readerArea).isEmpty = false := by
            simp [List.isEmpty_iff, hf]
          simp [komikstationManhwaChapter, h1, h2] at hmsg
      · have h1 : (tsPrimaryImages script).isEmpty = false := by simp [List.isEmpty_iff, hp]
        simp [komikstationManhwaChapter, h1] at hmsg
    · rintro ⟨hp, hf⟩
      refine ⟨"Failed to fetch chapter: Chapter images not found", ?_⟩
      have h1 : (tsPrimaryImages script).isEmpty = true := by simp [List.isEmpty_iff, hp]
      have h2 : (readerAreaImages readerArea).isEmpty = true := by simp [List.isEmpty_iff, hf]
      simp [komikstationManhwaChapter, h1, h2]

/-- Witness for C8: a chapter whose script block is absent but whose
`readerarea` div carries two images, and a chapter where both patterns fail. -/
theorem komikstation_fallback_witness :
    (komikstationManhwaChapter "solo-leveling-chapter-1" "Chapter 1" none
        (some ["https://cdn.example/1.jpg", "https://cdn.example/2.jpg"])).map
        KomikChapter.images =
      Except.ok [{ page := 1, img := "https://cdn.example/1.jpg" },
                 { page := 2, img := "https://cdn.example/2.jpg" }] ∧
    (∃ msg, komikstationManhwaChapter "solo-leveling-chapter-1" "Chapter 1" none none =
      Except.error msg) := by
  constructor
  · rw [(komikstation_fallback_before_parse_error
      "solo-leveling-chapter-1" "Chapter 1" none
      (some ["https://cdn.example/1.jpg", "https://cdn.example/2.jpg"])).2.1
      rfl (by decide)]
    rfl
  · exact (komikstation_fallback_before_parse_error
      "solo-leveling-chapter-1" "Chapter 1" none none).2.2.mpr ⟨rfl, rfl⟩

/-- Helper for C9: the `pages.push({ page: pages.length + 1, img })` loop
produces consecutive indices continuing the accumulator and appends the image
URLs in order. -/
theorem mangapillReadPages_foldl_spec (imgs : List String) (acc : List Page) :
    (imgs.foldl (fun pages img =>
        pages ++ [{ page := pages.length + 1, img := img }]) acc).map Page.page =
      acc.map Page.page ++ List.range' (acc.length + 1) imgs.length ∧
    (imgs.foldl (fun pages img =>
        pages ++ [{ page := pages.length + 1, img := img }]) acc).map Page.img =
      acc.map Page.img ++ imgs := by
  induction imgs generalizing acc with
  | nil => simp
  | cons i is ih =>
    have h := ih (acc ++ [{ page := acc.length + 1, img := i }])
    constructor
    · rw [List.foldl_cons, h.1]
      simp [List.range'_succ]
    · rw [List.foldl_cons, h.2]
      simp

/-- Claim C9: every successful page list — MangaPill read, MangaDex read,
ComicK chapter — carries the 1-based indices `1..n` in order (no gaps, no
duplicates) and the image URLs in exactly extraction order. -/
theorem pages_one_based_in_order :
    ∀ (imgs files : List String) (baseUrl hash : String) (cimgs : List ComickImg),
      (mangapillReadPages imgs).map Page.page = List.range' 1 imgs.length ∧
      (mangapillReadPages imgs).map Page.img = imgs ∧
      (mangadexReadPages baseUrl hash files).map Page.page = List.range' 1 files.length ∧
      (mangadexReadPages baseUrl hash files).map Page.img =
        files.map (fun f => baseUrl ++ "/data/" ++ hash ++ "/" ++ f) ∧
      (comickChapterPages cimgs).map Page.page = List.range' 1 cimgs.length ∧
      (comickChapterPages cimgs).map Page.img = cimgs.map comickImgUrl := by
  intro imgs files baseUrl hash cimgs
  refine ⟨?_, ?_, ?_, ?_, ?_, ?_⟩
  · simpa [mangapillReadPages] using (mangapillReadPages_foldl_spec imgs []).1
  · simpa [mangapillReadPages] using (mangapillReadPages_foldl_spec imgs []).2
  · rw [mangadexReadPages, List.map_map]
    calc files.enum.map (Page.page ∘ fun p =>
          { page := p.1 + 1, img := baseUrl ++ "/data/" ++ hash ++ "/" ++ p.2 })
        = (files.enum.map Prod.fst).map (fun n => 1 + n) := by
          rw [List.map_map]; exact List.map_congr_left (fun p _ => Nat.add_comm p.1 1)
      _ = List.range' 1 files.length := by
          rw [List.enum_map_fst, ← List.range'_eq_map_range]
  · rw [mangadexReadPages, List.map_map]
    calc files.enum.map (Page.img ∘ fun p =>
          { page := p.1 + 1, img := baseUrl ++ "/data/" ++ hash ++ "/" ++ p.2 })
        = (files.enum.map Prod.snd).map
            (fun f => baseUrl ++ "/data/" ++ hash ++ "/" ++ f) := by
          rw [List.map_map]; rfl
      _ = files.map (fun f => baseUrl ++ "/data/" ++ hash ++ "/" ++ f) := by
          rw [List.enum_map_snd]
  · rw [comickChapterPages, List.map_map]
    calc cimgs.enum.map (Page.page ∘ fun p => { page := p.1 + 1, img := comickImgUrl p.2 })
        = (cimgs.enum.map Prod.fst).map (fun n => 1 + n) := by
          rw [List.map_map]; exact List.map_congr_left (fun p _ => Nat.add_comm p.1 1)
      _ = List.range' 1 cimgs.length := by
          rw [List.enum_map_fst, ← List.range'_eq_map_range]
  · rw [comickChapterPages, List.map_map]
    calc cimgs.enum.map (Page.img ∘ fun p => { page := p.1 + 1, img := comickImgUrl p.2 })
        = (cimgs.enum.map Prod.snd).map comickImgUrl := by rw [List.map_map]; rfl
      _ = cimgs.map comickImgUrl := by rw [List.enum_map_snd]

/-- Helper for C10: appending an entry whose key no earlier entry carries
makes `find?` on the key return that entry. -/
theorem find?_key_append {β : Type} (l : List (String × β)) (k : String) (v : β)
    (h : ∀ p ∈ l, p.1 ≠ k) : (l ++ [(k, v)]).find? (fun p => p.1 == k) = some (k, v) := by
  induction l with
  | nil => simp
  | cons p t ih =>
    have hp : (p.1 == k) = false := by
      simpa using h p (List.mem_cons_self p t)
    rw [List.cons_append, List.find?_cons, hp]
    exact ih (fun q hq => h q (List.mem_cons_of_mem p hq))

/-- Claim C10: every JSON body the worker emits goes through `jsonResponse`,
which prepends `creator: 'emnextech'`; since no handler envelope carries a
`creator` key of its own (which, spread after the prepended field, would
overwrite it), every response body exposes `creator = "emnextech"` — shown
for arbitrary handler data without a `creator` key and for the fixed
`errorResponse` body shape. -/
theorem creator_field_always_present :
    ∀ (data : List (String × JVal)) (message : String),
      (∀ p ∈ data, p.1 ≠ "creator") →
      jsObjGet (jsonResponse data) "creator" = some (JVal.str "emnextech") ∧
      jsObjGet (jsonResponse (errorResponseData message)) "creator" =
        some (JVal.str "emnextech") := by
  intro data message h
  constructor
  · rw [jsObjGet, jsonResponse, List.reverse_cons,
      find?_key_append _ _ _ (fun p hp => h p (List.mem_reverse.mp hp))]
    rfl
  · rfl

/-- Witness for C10: a concrete success envelope. -/
theorem creator_field_always_present_witness :
    jsObjGet (jsonResponse [("status", JVal.str "success")]) "creator" =
      some (JVal.str "emnextech") :=
  (creator_field_always_present [("status", JVal.str "success")] "boom"
    (by intro p hp; simp at hp; simp [hp])).1

/-- Entry stored by `proxyImage` for a successful fetch at time `now`. -/
def freshImageEntry (ct : Option String) (body : List Nat) (now : Int) : ImageEntry :=
  { data := body, contentType := jsOrStr ct "image/jpeg", timestamp := now }

/-- Helper for C3: a fetch-and-store step never grows the cache past the
capacity. -/
theorem proxyImageFetch_length_le (cache : ImageCache) (url : String) (now : Int)
    (f : FetchOutcome) (h : cache.length ≤ MAX_IMAGE_CACHE_SIZE) :
    ((proxyImageFetch cache url now f).2).length ≤ MAX_IMAGE_CACHE_SIZE := by
  cases f with
  | failure st => simpa [proxyImageFetch] using h
  | success ct body =>
    simp only [proxyImageFetch]
    refine le_trans (length_mapSet_le _ _ _) ?_
    have hMAX : MAX_IMAGE_CACHE_SIZE = 100 := rfl
    by_cases hfull : MAX_IMAGE_CACHE_SIZE ≤ cache.length
    · rw [if_pos hfull]
      cases cache with
      | nil => simp [hMAX]
      | cons p t =>
        simp only [mapDelete_cons_self]
        simp only [List.length_cons] at h
        omega
    · rw [if_neg hfull]
      omega

/-- Helper for C3: `proxyImage` preserves the capacity bound on every path. -/
theorem proxyImage_length_le (cache : ImageCache) (url : String) (now : Int)
    (f : FetchOutcome) (h : cache.length ≤ MAX_IMAGE_CACHE_SIZE) :
    ((proxyImage cache url now f).2).length ≤ MAX_IMAGE_CACHE_SIZE := by
  rw [proxyImage]
  by_cases hne : url = ""
  · simpa [hne] using h
  · rw [if_neg hne]
    cases hm : mapGet cache url with
    | none => exact proxyImageFetch_length_le cache url now f h
    | some e =>
      by_cases hfresh : now - e.timestamp < IMAGE_CACHE_DURATION
      · simpa [hfresh] using h
      · simpa [hfresh] using proxyImageFetch_length_le cache url now f h

/-- Helper for C3: inserting a fresh URL into a cache at capacity deletes
exactly the first-inserted entry and appends the new one. -/
theorem proxyImage_evict_oldest (k0 : String) (e0 : ImageEntry) (t : ImageCache)
    (url : String) (now : Int) (ct : Option String) (body : List Nat)
    (hlen : ((k0, e0) :: t).length = MAX_IMAGE_CACHE_SIZE)
    (hnodup : (((k0, e0) :: t).map Prod.fst).Nodup)
    (hfresh : url ∉ ((k0, e0) :: t).map Prod.fst) (hne : url ≠ "") :
    (proxyImage ((k0, e0) :: t) url now (FetchOutcome.success ct body)).2 =
      t ++ [(url, freshImageEntry ct body now)] ∧
    mapGet (proxyImage ((k0, e0) :: t) url now (FetchOutcome.success ct body)).2 k0 =
      none := by
  have hget : mapGet ((k0, e0) :: t) url = none := mapGet_eq_none_of_not_mem _ _ hfresh
  have hk0t : k0 ∉ t.map Prod.fst := by
    simp only [List.map_cons, List.nodup_cons] at hnodup
    exact hnodup.1
  have hsplit : url ≠ k0 ∧ url ∉ t.map Prod.fst := by
    simp only [List.map_cons, List.mem_cons] at hfresh
    push_neg at hfresh
    exact hfresh
  have hfull : MAX_IMAGE_CACHE_SIZE ≤ ((k0, e0) :: t).length := le_of_eq hlen.symm
  have hfull2 : MAX_IMAGE_CACHE_SIZE ≤ t.length + 1 := by simpa using hfull
  have hdel : mapDelete ((k0, e0) :: t) k0 = t := mapDelete_cons_self (k0, e0) t
  have hmain : (proxyImage ((k0, e0) :: t) url now (FetchOutcome.success ct body)).2 =
      t ++ [(url, freshImageEntry ct body now)] := by
    simp [proxyImage, hne, hget, proxyImageFetch, hfull2, hdel,
      mapSet_eq_append_of_not_mem _ _ _ hsplit.2, freshImageEntry]
  refine ⟨hmain, ?_⟩
  rw [hmain, mapGet_append _ _ _ hk0t]
  simp [mapGet, hsplit.1]

/-- Helper for C3: inserting distinct fresh nonempty URLs into a cache with
room for all of them appends them in order. -/
theorem proxyInsertAll_fresh (now : Int) (ct : Option String) (body : List Nat)
    (urls : List String) :
    ∀ cache : ImageCache,
      cache.length + urls.length ≤ MAX_IMAGE_CACHE_SIZE →
      (∀ u ∈ urls, u ∉ cache.map Prod.fst ∧ u ≠ "") →
      urls.Nodup →
      proxyInsertAll cache urls now ct body =
        cache ++ urls.map (fun u => (u, freshImageEntry ct body now)) := by
  induction urls with
  | nil =>
    intro cache _ _ _
    simp [proxyInsertAll]
  | cons u us ih =>
    intro cache hlen hmem hnodup
    have hu := hmem u (List.mem_cons_self u us)
    have hgetu : mapGet cache u = none := mapGet_eq_none_of_not_mem _ _ hu.1
    have hMAX : MAX_IMAGE_CACHE_SIZE = 100 := rfl
    have hnotfull : ¬ MAX_IMAGE_CACHE_SIZE ≤ cache.length := by
      simp only [List.length_cons] at hlen
      omega
    have hstep : (proxyImage cache u now (FetchOutcome.success ct body)).2 =
        cache ++ [(u, freshImageEntry ct body now)] := by
      simp [proxyImage, hu.2, hgetu, proxyImageFetch, hnotfull,
        mapSet_eq_append_of_not_mem _ _ _ hu.1, freshImageEntry]
    have hrec := ih (cache ++ [(u, freshImageEntry ct body now)])
      (by simp only [List.length_append, List.length_cons, List.length_nil] at hlen ⊢
          omega)
      (by
        intro v hv
        have hvmem := hmem v (List.mem_cons_of_mem u hv)
        have hvu : v ≠ u := by
          rintro rfl
          exact (List.nodup_cons.mp hnodup).1 hv
        constructor
        · simp only [List.map_append, List.mem_append, List.map_cons, List.map_nil,
            List.mem_cons]
          rintro (hin | hin)
          · exact hvmem.1 hin
          · simp at hin
            exact hvu hin
        · exact hvmem.2)
      (List.nodup_cons.mp hnodup).2
    calc proxyInsertAll cache (u :: us) now ct body
        = proxyInsertAll (cache ++ [(u, freshImageEntry ct body now)]) us now ct body := by
          simp only [proxyInsertAll, List.foldl_cons, hstep]
      _ = cache ++ (u :: us).map (fun w => (w, freshImageEntry ct body now)) := by
          rw [hrec]
          simp

/-- Claim C3: the image cache never exceeds its fixed capacity
`MAX_IMAGE_CACHE_SIZE = 100`: (a) every `proxyImage` call preserves the
bound; (b) an insertion of a fresh URL while the cache is at capacity evicts
exactly the single first-inserted entry, keeping the rest in order and
appending the new entry; hence (c) after inserting `capacity + 1` distinct
URLs into the empty cache, the first-inserted URL is no longer retrievable. -/
theorem image_cache_bounded_insertion_order_eviction :
    (∀ (cache : ImageCache) (url : String) (now : Int) (f : FetchOutcome),
      cache.length ≤ MAX_IMAGE_CACHE_SIZE →
      ((proxyImage cache url now f).2).length ≤ MAX_IMAGE_CACHE_SIZE)
  ∧ (∀ (k0 : String) (e0 : ImageEntry) (t : ImageCache) (url : String) (now : Int)
        (ct : Option String) (body : List Nat),
      ((k0, e0) :: t).length = MAX_IMAGE_CACHE_SIZE →
      (((k0, e0) :: t).map Prod.fst).Nodup →
      url ∉ ((k0, e0) :: t).map Prod.fst → url ≠ "" →
      (proxyImage ((k0, e0) :: t) url now (FetchOutcome.success ct body)).2 =
        t ++ [(url, freshImageEntry ct body now)] ∧
      mapGet (proxyImage ((k0, e0) :: t) url now (FetchOutcome.success ct body)).2 k0 =
        none)
  ∧ (∀ (u0 : String) (rest : List String) (now : Int) (ct : Option String)
        (body : List Nat),
      (u0 :: rest).Nodup → (∀ u ∈ u0 :: rest, u ≠ "") →
      rest.length = MAX_IMAGE_CACHE_SIZE →
      mapGet (proxyInsertAll [] (u0 :: rest) now ct body) u0 = none) := by
  refine ⟨proxyImage_length_le, proxyImage_evict_oldest, ?_⟩
  intro u0 rest now ct body hnodup hne hlen
  obtain hnil | ⟨init, ulast, rfl⟩ := rest.eq_nil_or_concat
  · rw [hnil] at hlen
    simp [MAX_IMAGE_CACHE_SIZE] at hlen
  · rw [List.concat_eq_append] at *
    have hinitlen : init.length + 1 = MAX_IMAGE_CACHE_SIZE := by
      simpa using hlen
    have hsub : (u0 :: init).Sublist (u0 :: (init ++ [ulast])) :=
      List.cons_sublist_cons.mpr (List.sublist_append_left _ _)
    have hnodup0 : (u0 :: init).Nodup := hnodup.sublist hsub
    have hlast : ulast ∉ u0 :: init := by
      intro hmem
      rcases List.mem_cons.mp hmem with h0 | hin
      · exact (List.nodup_cons.mp hnodup).1 (by simp [h0])
      · have : ¬ (init ++ [ulast]).Nodup → False := fun hc =>
          hc (List.nodup_cons.mp hnodup).2
        refine this (fun hc => ?_)
        have := List.disjoint_of_nodup_append hc
        exact this hin (by simp)
    have hfold : proxyInsertAll [] (u0 :: init) now ct body =
        (u0 :: init).map (fun u => (u, freshImageEntry ct body now)) := by
      have := proxyInsertAll_fresh now ct body (u0 :: init) []
        (by simp only [List.length_cons, List.length_nil, MAX_IMAGE_CACHE_SIZE] at hinitlen ⊢
            omega)
        (fun u hu => ⟨by simp, hne u (hsub.mem hu)⟩)
        hnodup0
      simpa using this
    have hdecomp : proxyInsertAll [] (u0 :: (init ++ [ulast])) now ct body =
        (proxyImage (proxyInsertAll [] (u0 :: init) now ct body) ulast now
          (FetchOutcome.success ct body)).2 := by
      show proxyInsertAll [] ((u0 :: init) ++ [ulast]) now ct body = _
      simp only [proxyInsertAll, List.foldl_append, List.foldl_cons, List.foldl_nil]
    rw [hdecomp, hfold]
    have hkeys : ((u0 :: init).map (fun u => (u, freshImageEntry ct body now))).map
        Prod.fst = u0 :: init := by
      rw [List.map_map,
        show (Prod.fst ∘ fun u : String => (u, freshImageEntry ct body now)) = id from rfl,
        List.map_id]
    refine (proxyImage_evict_oldest u0 (freshImageEntry ct body now)
      (init.map (fun u => (u, freshImageEntry ct body now))) ulast now ct body
      ?_ ?_ ?_ (hne ulast (by simp))).2
    · simp only [List.length_cons, List.length_map]
      simpa using hinitlen
    · rw [show ((u0, freshImageEntry ct body now) ::
          init.map (fun u => (u, freshImageEntry ct body now))) =
          (u0 :: init).map (fun u => (u, freshImageEntry ct body now)) from rfl, hkeys]
      exact hnodup0
    · rw [show ((u0, freshImageEntry ct body now) ::
          init.map (fun u => (u, freshImageEntry ct body now))) =
          (u0 :: init).map (fun u => (u, freshImageEntry ct body now)) from rfl, hkeys]
      exact hlast

/-- Concrete capacity-many distinct nonempty URLs (strings of 2..101 copies
of `a`), to follow a first insertion of `"a"`. -/
def capacityUrls : List String :=
  (List.range 100).map (fun i => String.mk (List.replicate (i + 2) 'a'))

theorem capacityUrls_nodup : ("a" :: capacityUrls).Nodup := by
  rw [List.nodup_cons]
  constructor
  · intro hmem
    rw [capacityUrls, List.mem_map] at hmem
    obtain ⟨i, _, hi⟩ := hmem
    have := congrArg (fun s => s.toList.length) hi
    simp at this
  · refine List.Nodup.map ?_ (List.nodup_range 100)
    intro i j h
    have h2 : i + 2 = j + 2 := by
      simpa using congrArg (fun s => s.toList.length) h
    omega

theorem capacityUrls_ne_empty : ∀ u ∈ "a" :: capacityUrls, u ≠ "" := by
  intro u hu
  rcases List.mem_cons.mp hu with h0 | hin
  · subst h0; decide
  · rw [capacityUrls, List.mem_map] at hin
    obtain ⟨i, _, hi⟩ := hin
    intro he
    have := congrArg (fun s => s.toList.length) (hi.trans he)
    simp at this

/-- Witness for C3: inserting the 101 distinct URLs `"a" :: capacityUrls`
into the empty image cache leaves the first URL unretrievable, and a single
step from a small concrete cache respects the bound. -/
theorem image_cache_bounded_witness :
    mapGet (proxyInsertAll [] ("a" :: capacityUrls) 0 (some "image/png") [7]) "a" = none ∧
    ((proxyImage [] "https://cdn.mangapill.com/x.png" 0
        (FetchOutcome.success (some "image/png") [7])).2).length ≤ MAX_IMAGE_CACHE_SIZE := by
  constructor
  · exact image_cache_bounded_insertion_order_eviction.2.2 "a" capacityUrls 0
      (some "image/png") [7] capacityUrls_nodup capacityUrls_ne_empty
      (by rw [capacityUrls]; simp [MAX_IMAGE_CACHE_SIZE])
  · exact image_cache_bounded_insertion_order_eviction.1 [] _ 0 _ (by simp)

end MangaApi
